import Mathlib

/-!
Shallow embedding of `ceterach/revision.py`: the `Revision` lazy remote
object, its load routine, accessors, and the `restore` / `rollback`
operations. Collaborators that live outside this file's source
(`ceterach.utils.blah_decorate`, `ceterach.exceptions`, the `api`
transport, and the Page/User entities) are modelled from the spec where
noted in doc comments.
-/

namespace Ceterach

/-- Errors observable from this component. `stopIteration`, `keyError` and
`indexError` model the raw Python exceptions that escape response decoding;
`nonexistentRevision` models `NonexistentRevisionError` (spec:
`NonexistentEntityError` carrying the entity kind "Revision" and its id);
`permissionsError` models `PermissionsError`; `attributeError` models a raw
`AttributeError`; `editFailure` models an opaque propagated page-edit or
transport failure. -/
inductive Err where
  | stopIteration : Err
  | keyError (key : String) : Err
  | indexError : Err
  | attributeError : Err
  | nonexistentRevision (revid : Nat) : Err
  | permissionsError (msg : String) : Err
  | editFailure (code : Nat) : Err
deriving DecidableEq

deriving instance DecidableEq for Except

/-- One element of the response's `revisions` list. Each `Option` models
presence/absence of the dict key; `parentid` is always present per the
response shape (0 or null when there is no parent), so `none` models null
and `some 0` models 0. `star` is the `"*"` key holding the full text. -/
structure RevRecord where
  comment : Option String
  timestamp : Option String
  user : Option String
  minor : Bool
  rollbacktoken : Option String
  parentid : Option Nat
  star : Option String
deriving DecidableEq

/-- The first record yielded by the query iterator, as a dict that may lack
keys. An empty dict (falsy in Python) is `⟨none, none⟩`. -/
structure Response where
  pageid : Option Nat
  revisions : Option (List RevRecord)
deriving DecidableEq

/-- Python truthiness of the response dict: truthy iff it has at least one key. -/
def Response.truthy (r : Response) : Bool :=
  r.pageid.isSome || r.revisions.isSome

/-- The empty dict `\x7b\x7d`: falsy. -/
def Response.empty : Response := ⟨none, none⟩

/-- Modelled from the spec: `api.page(pageIdentifier)` resolves a page id
into a cheap, non-loading Page entity (an external collaborator, not under
src/). We record the client handle identity and the page id. -/
structure Page where
  api : Nat
  pageid : Nat
deriving DecidableEq

/-- Modelled from the spec: `api.user(name)` resolves a user name into a
cheap, non-loading User entity (external collaborator); its `name`
accessor returns the stored name without I/O. -/
structure User where
  api : Nat
  name : String
deriving DecidableEq

/-- Modelled from the spec: `isostrptime` from `ceterach.utils` (not under
src/) parses the ISO-8601 timestamp string into a point in time. We model
the parsed timestamp by the string it was parsed from. -/
def isostrptime (s : String) : String := s

/-- The mutable attribute bag of a `Revision` object. `_api` and `_revid`
are set by `__init__`; every other field models a `self._foo` attribute
that may or may not have been set (`none` = attribute absent, so
`hasattr` is `Option.isSome`). `_prev_revision` may be set to Python
`None`, hence the nested `Option`; the inner value stores the
`(api, revid)` identity of the unloaded `Revision` object built for the
parent. -/
structure Revision where
  api_ : Nat
  revid_ : Nat
  page_ : Option Page := none
  summary_ : Option String := none
  timestamp_ : Option String := none
  user_ : Option User := none
  is_minor_ : Option Bool := none
  rvtoken_ : Option String := none
  prev_revision_ : Option (Option (Nat × Nat)) := none
  content_ : Option String := none
  is_deleted_ : Option Bool := none
deriving DecidableEq

/-- `Revision.__init__`: store the client handle and the revision id; no
other attribute is set. -/
def mkRevision (api revid : Nat) : Revision :=
  { api_ := api, revid_ := revid }

/-- The `revid` property: `_revid` is always set by `__init__`, so the
decorated accessor returns it without triggering a load. -/
def Revision.revidProp (r : Revision) : Nat := r.revid_

/-- `Revision.__eq__` restricted to `Revision` arguments: compares the
other object's `_api` and `revid` with `self`'s. -/
def beqRev (self other : Revision) : Bool :=
  (other.api_ == self.api_) && (other.revidProp == self.revidProp)

/-- `Revision.__ne__` restricted to `Revision` arguments. -/
def bneRev (self other : Revision) : Bool :=
  (other.api_ != self.api_) || (other.revidProp != self.revidProp)

/-- True iff no lazily loaded attribute has been set (freshly constructed
object). -/
def unloadedRev (r : Revision) : Bool :=
  r.page_.isNone && r.summary_.isNone && r.timestamp_.isNone &&
  r.user_.isNone && r.is_minor_.isNone && r.rvtoken_.isNone &&
  r.prev_revision_.isNone && r.content_.isNone && r.is_deleted_.isNone

/-- The full field bundle of a successful load (the rollback token and the
content being optional within it). -/
def fullyPopulated (r : Revision) : Bool :=
  r.page_.isSome && r.summary_.isSome && r.timestamp_.isSome &&
  r.user_.isSome && r.is_minor_.isSome && r.prev_revision_.isSome &&
  r.is_deleted_.isSome

/-- The parameter mapping built by `rollback` and handed to `api.call`.
`summary` and `markbot` are `Option`s because those keys are only
conditionally included. -/
structure Params where
  title : String
  user : String
  token : String
  action : String
  summary : Option String
  markbot : Option Nat
deriving DecidableEq

/-- The external collaborators, modelled from the spec (the transport and
the Page/User object models are outside src/): `query revid` is the first
record yielded by `api.iterator` for that revision id (`none` models the
iterator being exhausted, i.e. `next` raising `StopIteration`);
`titleOf` is the Page collaborator's `title` accessor, keyed by page id;
`callResult` is the raw decoded result of the mutating `api.call`;
`pageEdit` is the Page collaborator's `edit(content, summary, minor, bot,
force)` operation, keyed by page id, whose failures are opaque to this
component. Raw results are modelled as `Nat`. -/
structure Transport where
  query : Nat → Option Response
  titleOf : Nat → String
  callResult : Params → Nat
  pageEdit : Nat → String → String → Bool → Bool → Bool → Except Err Nat

/-- Result of `load_attributes` / `__load`: the object's attribute state
after the call (Python mutates `self` in place, so on an exception the
attributes already assigned remain), the exception if one escaped, and the
number of iterator queries issued. -/
structure LoadResult where
  state : Revision
  err : Option Err
  queries : Nat
deriving DecidableEq

/-- The decoding half of `Revision.__load`, from
`self._page = self._api.page(res['pageid'])` onward: `res =
res['revisions'][0]`, then the sequential attribute assignments, the
`try/except KeyError: pass` around `rollbacktoken`, the `parentid`
truthiness test, and the `try res["*"] / except KeyError`
deleted-detection. Each dict lookup on a missing key raises `keyError`;
indexing an empty list raises `indexError`. Attributes are assigned one at
a time, so an exception leaves the ones already assigned in place. `n` is
the query count accumulated while obtaining `res`. -/
def decodeLoad (r : Revision) (res : Response) (n : Nat) : LoadResult :=
  match res.pageid with
    | none => ⟨r, some (.keyError "pageid"), n⟩
    | some pid =>
      let r₁ := { r with page_ := some ⟨r.api_, pid⟩ }
      match res.revisions with
      | none => ⟨r₁, some (.keyError "revisions"), n⟩
      | some [] => ⟨r₁, some .indexError, n⟩
      | some (rec :: _) =>
        match rec.comment with
        | none => ⟨r₁, some (.keyError "comment"), n⟩
        | some cmt =>
          let r₂ := { r₁ with summary_ := some cmt }
          match rec.timestamp with
          | none => ⟨r₂, some (.keyError "timestamp"), n⟩
          | some ts =>
            let r₃ := { r₂ with timestamp_ := some (isostrptime ts) }
            match rec.user with
            | none => ⟨r₃, some (.keyError "user"), n⟩
            | some u =>
              let r₄ := { r₃ with user_ := some ⟨r.api_, u⟩ }
              let r₅ := { r₄ with is_minor_ := some rec.minor }
              let r₆ :=
                match rec.rollbacktoken with
                | some tok => { r₅ with rvtoken_ := some tok }
                | none => r₅
              let r₇ :=
                match rec.parentid with
                | some p =>
                  if p ≠ 0 then
                    { r₆ with prev_revision_ := some (some (r.api_, p)) }
                  else
                    { r₆ with prev_revision_ := some none }
                | none => { r₆ with prev_revision_ := some none }
              let r₈ :=
                match rec.star with
                | some txt =>
                  { r₇ with content_ := some txt, is_deleted_ := some false }
                | none => { r₇ with is_deleted_ := some true }
              ⟨r₈, none, n⟩

/-- `Revision.__load` (and `load_attributes`, which just forwards to it):
`res = res or next(i(kwargs, use_defaults=False))` — a truthy supplied
response short-circuits the transport query, otherwise one query is issued
(an exhausted iterator raises `StopIteration`) — followed by the decoding
of `decodeLoad`. -/
def loadAttributes (t : Transport) (r : Revision) (supplied : Option Response) :
    LoadResult :=
  let useSupplied : Bool :=
    match supplied with
    | some s => s.truthy
    | none => false
  if useSupplied then
    decodeLoad r (supplied.getD Response.empty) 0
  else
    match t.query r.revid_ with
    | some rsp => decodeLoad r rsp 1
    | none => ⟨r, some .stopIteration, 1⟩

/-- The lazily loaded attributes, one constructor per decorated property
(`revid` is excluded: it is set at construction and never loads). -/
inductive Field where
  | page | summary | timestamp | user | isMinor | rvtoken
  | prevRevision | content | isDeleted
deriving DecidableEq

/-- A uniform wrapper for the values the decorated properties return. -/
inductive FieldVal where
  | pageV (p : Page)
  | strV (s : String)
  | boolV (b : Bool)
  | userV (u : User)
  | prevV (pr : Option (Nat × Nat))
deriving DecidableEq

/-- `getattr(self, prop)` for each lazy attribute: `some` iff the backing
`self._foo` attribute has been set. -/
def getField (r : Revision) : Field → Option FieldVal
  | .page => r.page_.map .pageV
  | .summary => r.summary_.map .strV
  | .timestamp => r.timestamp_.map .strV
  | .user => r.user_.map .userV
  | .isMinor => r.is_minor_.map .boolV
  | .rvtoken => r.rvtoken_.map .strV
  | .prevRevision => r.prev_revision_.map .prevV
  | .content => r.content_.map .strV
  | .isDeleted => r.is_deleted_.map .boolV

/-- Result of one decorated property access: the value or the exception,
the object's attribute state afterwards, and the iterator queries issued. -/
structure AccessResult where
  result : Except Err FieldVal
  state : Revision
  queries : Nat
deriving DecidableEq

/-- Modelled from the spec: the accessor discipline of `decorate` /
`blah_decorate` from `ceterach.utils` (not under src/). Per spec §4.1: if
the backing field is cached, return it with no I/O; otherwise invoke the
load operation with no arguments (its failures propagate unchanged, spec
§7), re-check, and if the field is still absent fail with the
`NonexistentEntityError` naming the entity kind and its `revid`. -/
def accessAttr (t : Transport) (r : Revision) (f : Field) : AccessResult :=
  match getField r f with
  | some v => ⟨.ok v, r, 0⟩
  | none =>
    let lr := loadAttributes t r none
    match lr.err with
    | some e => ⟨.error e, lr.state, lr.queries⟩
    | none =>
      match getField lr.state f with
      | some v => ⟨.ok v, lr.state, lr.queries⟩
      | none => ⟨.error (.nonexistentRevision lr.state.revid_), lr.state, lr.queries⟩

/-- Result of `rollback` or `restore`: the raw result or the exception, the
object's state afterwards, the iterator queries issued by accessor-triggered
loads, and the list of parameter mappings handed to the mutating
`api.call` (in order). -/
structure OpResult where
  result : Except Err Nat
  state : Revision
  queries : Nat
  calls : List Params
deriving DecidableEq

/-- `Revision.rollback(summary, bot)`, line by line. The params dict literal
is evaluated first, reading `self.page.title`, `self.user.name` and
`self.rvtoken` in that order (each a decorated access that may raise); only
then does the `try: params['token'] = self.rvtoken / except AttributeError`
guard run, re-reading the property and converting an `AttributeError` into
`PermissionsError("You do not have the rollback permission")`. `summary` is
added iff it is not `None`; `markbot = 1` is added iff `bot`; finally
`api.call(params)` is issued and its raw result returned. Branches mapping an
`ok` of the wrong `FieldVal` constructor to `attributeError` are unreachable
(each field only ever stores its own constructor). -/
def rollback (t : Transport) (r : Revision) (summary : Option String)
    (bot : Bool) : OpResult :=
  match accessAttr t r .page with
  | ⟨.error e, r₁, n₁⟩ => ⟨.error e, r₁, n₁, []⟩
  | ⟨.ok (.pageV pg), r₁, n₁⟩ =>
    let title := t.titleOf pg.pageid
    match accessAttr t r₁ .user with
    | ⟨.error e, r₂, n₂⟩ => ⟨.error e, r₂, n₁ + n₂, []⟩
    | ⟨.ok (.userV u), r₂, n₂⟩ =>
      match accessAttr t r₂ .rvtoken with
      | ⟨.error e, r₃, n₃⟩ => ⟨.error e, r₃, n₁ + n₂ + n₃, []⟩
      | ⟨.ok (.strV tok), r₃, n₃⟩ =>
        let params : Params :=
          ⟨title, u.name, tok, "rollback", none, none⟩
        match accessAttr t r₃ .rvtoken with
        | ⟨.error e, r₄, n₄⟩ =>
          if e == .attributeError then
            ⟨.error (.permissionsError "You do not have the rollback permission"),
              r₄, n₁ + n₂ + n₃ + n₄, []⟩
          else
            ⟨.error e, r₄, n₁ + n₂ + n₃ + n₄, []⟩
        | ⟨.ok (.strV tok₂), r₄, n₄⟩ =>
          let params₁ := { params with token := tok₂ }
          let params₂ :=
            match summary with
            | some s => { params₁ with summary := some s }
            | none => params₁
          let params₃ :=
            if bot then { params₂ with markbot := some 1 } else params₂
          ⟨.ok (t.callResult params₃), r₄, n₁ + n₂ + n₃ + n₄, [params₃]⟩
        | ⟨.ok _, r₄, n₄⟩ => ⟨.error .attributeError, r₄, n₁ + n₂ + n₃ + n₄, []⟩
      | ⟨.ok _, r₃, n₃⟩ => ⟨.error .attributeError, r₃, n₁ + n₂ + n₃, []⟩
    | ⟨.ok _, r₂, n₂⟩ => ⟨.error .attributeError, r₂, n₁ + n₂, []⟩
  | ⟨.ok _, r₁, n₁⟩ => ⟨.error .attributeError, r₁, n₁, []⟩

/-- `Revision.restore(summary, minor, bot, force)`:
`return self.page.edit(self.content, summary, minor, bot, force)`.
`self.page` is read first, then `self.content`; the page-edit result
(success or failure) is returned unchanged, with no retry, no handling and
no `api.call` of this component's own. -/
def restore (t : Transport) (r : Revision) (summary : String)
    (minor bot force : Bool) : OpResult :=
  match accessAttr t r .page with
  | ⟨.error e, r₁, n₁⟩ => ⟨.error e, r₁, n₁, []⟩
  | ⟨.ok (.pageV pg), r₁, n₁⟩ =>
    match accessAttr t r₁ .content with
    | ⟨.error e, r₂, n₂⟩ => ⟨.error e, r₂, n₁ + n₂, []⟩
    | ⟨.ok (.strV c), r₂, n₂⟩ =>
      ⟨t.pageEdit pg.pageid c summary minor bot force, r₂, n₁ + n₂, []⟩
    | ⟨.ok _, r₂, n₂⟩ => ⟨.error .attributeError, r₂, n₁ + n₂, []⟩
  | ⟨.ok _, r₁, n₁⟩ => ⟨.error .attributeError, r₁, n₁, []⟩

/-! ## Structural lemmas about the load routine and the accessor pattern -/

/-- Decoding never issues a query of its own: the query count of the result
is the count accumulated while fetching. -/
theorem decodeLoad_queries (r : Revision) (res : Response) (n : Nat) :
    (decodeLoad r res n).queries = n := by
  obtain ⟨pid?, revs?⟩ := res
  rcases pid? with _ | pid
  · rfl
  rcases revs? with _ | (_ | ⟨⟨c?, ts?, u?, mn, tok?, par?, st?⟩, rest⟩)
  · rfl
  · rfl
  rcases c? with _ | c
  · rfl
  rcases ts? with _ | ts
  · rfl
  rcases u? with _ | u <;> rfl

/-- Full characterisation of decoding a well-formed response record: all
fields of the bundle are assigned; the rollback token and the content keep
their previous values when their keys are absent (the `except: pass` and
the `except KeyError` branch assign nothing). -/
theorem decodeLoad_spec (r : Revision) (pid : Nat) (c ts u : String)
    (mn : Bool) (tok? : Option String) (par? : Option Nat)
    (st? : Option String) (rest : List RevRecord) (n : Nat) :
    decodeLoad r
        ⟨some pid, some (⟨some c, some ts, some u, mn, tok?, par?, st?⟩ :: rest)⟩ n =
      ⟨{ r with
          page_ := some ⟨r.api_, pid⟩,
          summary_ := some c,
          timestamp_ := some (isostrptime ts),
          user_ := some ⟨r.api_, u⟩,
          is_minor_ := some mn,
          rvtoken_ := tok?.or r.rvtoken_,
          prev_revision_ := some (match par? with
            | some p => if p ≠ 0 then some (r.api_, p) else none
            | none => none),
          content_ := st?.or r.content_,
          is_deleted_ := some st?.isNone }, none, n⟩ := by
  rcases par? with _ | p
  · cases tok? <;> cases st? <;> rfl
  · rcases Nat.eq_zero_or_pos p with hp | hp
    · subst hp
      cases tok? <;> cases st? <;> rfl
    · have hp' : p ≠ 0 := Nat.pos_iff_ne_zero.mp hp
      cases tok? <;> cases st? <;> simp [decodeLoad, Option.or, hp']

/-- A decode that raises no exception has assigned the whole field
bundle. -/
theorem decodeLoad_success_populates (r : Revision) (res : Response) (n : Nat)
    (h : (decodeLoad r res n).err = none) :
    fullyPopulated (decodeLoad r res n).state = true := by
  obtain ⟨pid?, revs?⟩ := res
  rcases pid? with _ | pid
  · nomatch h
  rcases revs? with _ | (_ | ⟨⟨c?, ts?, u?, mn, tok?, par?, st?⟩, rest⟩)
  · nomatch h
  · nomatch h
  rcases c? with _ | c
  · nomatch h
  rcases ts? with _ | ts
  · nomatch h
  rcases u? with _ | u
  · nomatch h
  rcases par? with _ | p
  · cases tok? <;> cases st? <;> rfl
  · rcases Nat.eq_zero_or_pos p with hp | hp
    · subst hp
      cases tok? <;> cases st? <;> rfl
    · have hp' : p ≠ 0 := Nat.pos_iff_ne_zero.mp hp
      cases tok? <;> cases st? <;> simp [decodeLoad, fullyPopulated, hp']

/-- A load with no supplied response, when the iterator yields a record,
decodes it after the single query. -/
theorem loadAttributes_via_query (t : Transport) (r : Revision)
    (rsp : Response) (hq : t.query r.revid_ = some rsp) :
    loadAttributes t r none = decodeLoad r rsp 1 := by
  unfold loadAttributes
  simp only [hq]
  rfl

/-- A load with no supplied response, when the iterator is exhausted,
raises `StopIteration` after the single query and leaves the state
untouched. -/
theorem loadAttributes_no_record (t : Transport) (r : Revision)
    (hq : t.query r.revid_ = none) :
    loadAttributes t r none = ⟨r, some .stopIteration, 1⟩ := by
  unfold loadAttributes
  simp only [hq]
  rfl

/-- A falsy supplied response is ignored: the load behaves exactly as if no
response had been supplied. -/
theorem loadAttributes_falsy (t : Transport) (r : Revision) (rsp : Response)
    (h : rsp.truthy = false) :
    loadAttributes t r (some rsp) = loadAttributes t r none := by
  obtain ⟨pid?, revs?⟩ := rsp
  rcases pid? with _ | pid
  · rcases revs? with _ | l
    · rfl
    · simp [Response.truthy] at h
  · simp [Response.truthy] at h

/-- A truthy supplied response short-circuits the query: the load decodes
it directly with no query issued. -/
theorem loadAttributes_truthy_eq (t : Transport) (r : Revision)
    (rsp : Response) (h : rsp.truthy = true) :
    loadAttributes t r (some rsp) = decodeLoad r rsp 0 := by
  obtain ⟨pid?, revs?⟩ := rsp
  rcases pid? with _ | pid
  · rcases revs? with _ | l
    · simp [Response.truthy] at h
    · rfl
  · rfl

/-- A load invoked without a supplied response issues exactly one
transport query, whatever its outcome. -/
theorem loadAttributes_none_queries (t : Transport) (r : Revision) :
    (loadAttributes t r none).queries = 1 := by
  cases hq : t.query r.revid_ with
  | none => rw [loadAttributes_no_record t r hq]
  | some rsp =>
    rw [loadAttributes_via_query t r rsp hq]
    exact decodeLoad_queries r rsp 1

/-- Every load either decodes some response or stops with
`StopIteration`. -/
theorem loadAttributes_shape (t : Transport) (r : Revision)
    (supplied : Option Response) :
    (∃ rsp n, loadAttributes t r supplied = decodeLoad r rsp n) ∨
    loadAttributes t r supplied = ⟨r, some .stopIteration, 1⟩ := by
  have viaNone : (∃ rsp n, loadAttributes t r none = decodeLoad r rsp n) ∨
      loadAttributes t r none = ⟨r, some .stopIteration, 1⟩ := by
    cases hq : t.query r.revid_ with
    | none => exact Or.inr (loadAttributes_no_record t r hq)
    | some rsp => exact Or.inl ⟨rsp, 1, loadAttributes_via_query t r rsp hq⟩
  cases supplied with
  | none => exact viaNone
  | some s =>
    rcases Bool.eq_false_or_eq_true s.truthy with ht | ht
    · exact Or.inl ⟨s, 0, loadAttributes_truthy_eq t r s ht⟩
    · rw [loadAttributes_falsy t r s ht]
      exact viaNone

/-- A cached attribute is returned as is: no load, no query, state
unchanged. -/
theorem accessAttr_cached (t : Transport) (r : Revision) (f : Field)
    (v : FieldVal) (h : getField r f = some v) :
    accessAttr t r f = ⟨.ok v, r, 0⟩ := by
  unfold accessAttr
  rw [h]

/-- An access to an uncached attribute, when the triggered load succeeds
in one query, re-checks the field on the new state. -/
theorem accessAttr_after_load (t : Transport) (r r' : Revision) (f : Field)
    (h : getField r f = none)
    (hl : loadAttributes t r none = ⟨r', none, 1⟩) :
    accessAttr t r f =
      (match getField r' f with
        | some v => ⟨.ok v, r', 1⟩
        | none => ⟨.error (.nonexistentRevision r'.revid_), r', 1⟩) := by
  unfold accessAttr
  rw [h, hl]

/-- An access to an uncached attribute, when the triggered load raises,
propagates the load's exception unchanged (with the state the failed load
left behind). -/
theorem accessAttr_load_error (t : Transport) (r r' : Revision) (f : Field)
    (e : Err) (n : Nat) (h : getField r f = none)
    (hl : loadAttributes t r none = ⟨r', some e, n⟩) :
    accessAttr t r f = ⟨.error e, r', n⟩ := by
  unfold accessAttr
  rw [h, hl]

/-! ## Concrete fixtures used for counterexamples and witnesses -/

/-- A well-formed revision record carrying a rollback token, content, and
parent id 4. -/
def sampleRec : RevRecord :=
  ⟨some "c", some "2013-01-01T00:00:00Z", some "Bar", false, some "TOK",
    some 4, some "text"⟩

/-- A query response wrapping `sampleRec` under page id 3. -/
def sampleResp : Response := ⟨some 3, some [sampleRec]⟩

/-- A transport that always yields `sampleResp`, titles every page "Foo",
returns 42 from `api.call` and 17 from page edits. -/
def sampleT : Transport :=
  ⟨fun _ => some sampleResp, fun _ => "Foo", fun _ => 42,
    fun _ _ _ _ _ _ => .ok 17⟩

/-- `sampleRec` with the rollback token withheld by the server. -/
def tokenlessRec : RevRecord := { sampleRec with rollbacktoken := none }

/-- A transport whose record carries no rollback token. -/
def tokenlessT : Transport :=
  ⟨fun _ => some ⟨some 3, some [tokenlessRec]⟩, fun _ => "Foo", fun _ => 42,
    fun _ _ _ _ _ _ => .ok 17⟩

/-- `sampleRec` with the content key `"*"` absent (suppressed revision). -/
def deletedRec : RevRecord := { sampleRec with star := none }

/-- A transport whose record lacks the content key. -/
def deletedT : Transport :=
  ⟨fun _ => some ⟨some 3, some [deletedRec]⟩, fun _ => "Foo", fun _ => 42,
    fun _ _ _ _ _ _ => .ok 17⟩

/-- A transport whose response holds a `pageid` but an empty `revisions`
list, making `res['revisions'][0]` raise `IndexError` mid-load. -/
def emptyRevsT : Transport :=
  ⟨fun _ => some ⟨some 3, some []⟩, fun _ => "Foo", fun _ => 42,
    fun _ _ _ _ _ _ => .ok 17⟩

/-- A transport whose query iterator yields nothing for any revision id
(the nonexistent-revision scenario). -/
def noRecordT : Transport :=
  ⟨fun _ => none, fun _ => "Foo", fun _ => 42, fun _ _ _ _ _ _ => .ok 17⟩

/-- A transport whose page-edit operation fails with an opaque error. -/
def failEditT : Transport :=
  ⟨fun _ => none, fun _ => "Foo", fun _ => 42,
    fun _ _ _ _ _ _ => .error (.editFailure 9)⟩

/-- A revision whose page, user, rollback token and content attributes are
already cached. -/
def cachedRev : Revision :=
  { mkRevision 0 5 with
    page_ := some ⟨0, 10⟩,
    user_ := some ⟨0, "Bar"⟩,
    rvtoken_ := some "TOK",
    content_ := some "text" }

/-- The object the source stores in `self._prev_revision`:
`Revision(self._api, res['parentid'])`, a freshly constructed (hence
unloaded) Revision; the embedding records its `(api, revid)` identity
pair. -/
def prevRevisionObj (pr : Nat × Nat) : Revision := mkRevision pr.1 pr.2

/-! ## The claims -/

/-- Claim C1 (code_bug evidence): on a loaded Revision whose rollback token
is absent, `rollback` raises the accessor's nonexistence error
(`NonexistentRevisionError`) while evaluating `self.rvtoken` inside the
params dict literal — before the `try/except AttributeError` guard can turn
anything into `PermissionsError("You do not have the rollback permission")`
— and no mutating `api.call` is issued. -/
theorem rollback_without_token_raises_nonexistent_c1 :
    (rollback tokenlessT (loadAttributes tokenlessT (mkRevision 0 5) none).state
        (some "") false).result = .error (.nonexistentRevision 5) ∧
    (rollback tokenlessT (loadAttributes tokenlessT (mkRevision 0 5) none).state
        (some "") false).result
      ≠ .error (.permissionsError "You do not have the rollback permission") ∧
    (rollback tokenlessT (loadAttributes tokenlessT (mkRevision 0 5) none).state
        (some "") false).calls = [] := by
  decide

/-- Claim C2: on a Revision whose page, user and rollback token attributes
are cached, `rollback summary bot` issues exactly one mutating call whose
params carry the page's title under `title`, the authoring user's name
under `user`, the rollback token under `token` and `action = "rollback"`,
with the `summary` key included iff `summary` is not `None` (an explicit
empty string is passed through as a blank summary) and `markbot = 1`
included iff `bot`; the call's raw result is returned unchanged, the state
is untouched and no query is issued. -/
theorem rollback_request_shape_c2 (t : Transport) (r : Revision) (pg : Page)
    (u : User) (tok : String) (summary : Option String) (bot : Bool)
    (hp : r.page_ = some pg) (hu : r.user_ = some u)
    (ht : r.rvtoken_ = some tok) :
    rollback t r summary bot =
      ⟨.ok (t.callResult ⟨t.titleOf pg.pageid, u.name, tok, "rollback",
          summary, if bot then some 1 else none⟩), r, 0,
        [⟨t.titleOf pg.pageid, u.name, tok, "rollback", summary,
          if bot then some 1 else none⟩]⟩ := by
  cases summary <;> cases bot <;>
    simp [rollback, accessAttr, getField, hp, hu, ht]

/-- Witness for C2 at the spec's own example: token "TOK", title "Foo",
user "Bar", `rollback(summary="undo", bot=True)`. -/
theorem rollback_request_shape_c2_witness :
    rollback sampleT cachedRev (some "undo") true =
      ⟨.ok 42, cachedRev, 0,
        [⟨"Foo", "Bar", "TOK", "rollback", some "undo", some 1⟩]⟩ :=
  rollback_request_shape_c2 sampleT cachedRev ⟨0, 10⟩ ⟨0, "Bar"⟩ "TOK"
    (some "undo") true rfl rfl rfl

/-- Claim C3 counterexample: a load that fails mid-decode (empty
`revisions` list raises `IndexError` after `self._page` was assigned)
leaves a partially populated object: the page accessor afterwards returns
the cached page with no further query while `_summary` was never set, so
the failed load is externally observable — refuting "either all fields are
set or none are". -/
theorem load_failure_partial_state_c3_counterexample :
    (loadAttributes emptyRevsT (mkRevision 0 7) none).err = some .indexError ∧
    accessAttr emptyRevsT (loadAttributes emptyRevsT (mkRevision 0 7) none).state .page
      = ⟨.ok (.pageV ⟨0, 3⟩),
          (loadAttributes emptyRevsT (mkRevision 0 7) none).state, 0⟩ ∧
    (loadAttributes emptyRevsT (mkRevision 0 7) none).state.summary_ = none := by
  decide

/-- Claim C3 (amended): a load that completes without an exception
populates the whole field bundle (rollback token and content optional
within it); a failed load does not roll back the attributes assigned
before the failure point. -/
theorem load_success_populates_c3 (t : Transport) (r : Revision)
    (supplied : Option Response)
    (h : (loadAttributes t r supplied).err = none) :
    fullyPopulated (loadAttributes t r supplied).state = true := by
  rcases loadAttributes_shape t r supplied with ⟨rsp, n, he⟩ | he
  · rw [he] at h ⊢
    exact decodeLoad_success_populates r rsp n h
  · rw [he] at h
    nomatch h

/-- Witness for C3's amended theorem: a successful concrete load populates
the bundle. -/
theorem load_success_populates_c3_witness :
    fullyPopulated (loadAttributes sampleT (mkRevision 0 5) none).state = true :=
  load_success_populates_c3 sampleT (mkRevision 0 5) none (by decide)

/-- Claim C4 counterexample: when the query for revid 999 yields no
record, an accessor raises the propagated `StopIteration` from the
exhausted iterator, not `NonexistentRevisionError` naming 999. -/
theorem nonexistent_access_error_c4_counterexample :
    (accessAttr noRecordT (mkRevision 0 999) .summary).result
      = .error .stopIteration ∧
    Err.stopIteration ≠ .nonexistentRevision 999 := by
  decide

/-- Claim C4 (amended): on a revision whose query yields no record, every
lazy attribute access fails with the same propagated error
(`StopIteration`), uniformly across attributes, rather than with the typed
nonexistence error. -/
theorem nonexistent_access_uniform_c4 (t : Transport) (api revid : Nat)
    (h : t.query revid = none) (f : Field) :
    (accessAttr t (mkRevision api revid) f).result = .error .stopIteration := by
  have hl : loadAttributes t (mkRevision api revid) none
      = ⟨mkRevision api revid, some .stopIteration, 1⟩ :=
    loadAttributes_no_record t (mkRevision api revid) h
  cases f <;>
    rw [accessAttr_load_error t (mkRevision api revid) (mkRevision api revid) _
      .stopIteration 1 (by rfl) hl]

/-- Witness for C4's amended theorem at revid 999. -/
theorem nonexistent_access_uniform_c4_witness :
    (accessAttr noRecordT (mkRevision 0 999) .user).result
      = .error .stopIteration :=
  nonexistent_access_uniform_c4 noRecordT 0 999 rfl .user

/-- Claim C5: two Revision objects are equal exactly when they share the
client handle and the revision id; the comparison reads only `_api` and
the always-present `_revid`, so it is independent of load state. -/
theorem revision_eq_iff_c5 (a b : Revision) :
    beqRev a b = true ↔ (a.api_ = b.api_ ∧ a.revid_ = b.revid_) := by
  unfold beqRev Revision.revidProp
  constructor
  · intro h
    simp only [Bool.and_eq_true, beq_iff_eq] at h
    exact ⟨h.1.symm, h.2.symm⟩
  · intro h
    simp only [Bool.and_eq_true, beq_iff_eq]
    exact ⟨h.1.symm, h.2.symm⟩

/-- Accessing `content` on a revision whose `_content` attribute is unset,
when the transport keeps answering with a record lacking the `"*"` key,
triggers a reload that still leaves `_content` unset, so the accessor
fails with the nonexistence error naming the revision id. -/
theorem accessAttr_content_deleted (t : Transport) (revid pid : Nat)
    (c ts u : String) (mn : Bool) (tok? : Option String) (par? : Option Nat)
    (rest : List RevRecord) (r : Revision)
    (hr : r.content_ = none) (hrev : r.revid_ = revid)
    (hq : t.query revid =
      some ⟨some pid, some (⟨some c, some ts, some u, mn, tok?, par?, none⟩ :: rest)⟩) :
    (accessAttr t r .content).result = .error (.nonexistentRevision revid) := by
  have hq' : t.query r.revid_ =
      some ⟨some pid, some (⟨some c, some ts, some u, mn, tok?, par?, none⟩ :: rest)⟩ := by
    rw [hrev]
    exact hq
  have hl := (loadAttributes_via_query t r _ hq').trans
    (decodeLoad_spec r pid c ts u mn tok? par? none rest 1)
  rw [accessAttr_after_load t r _ .content (by simp [getField, hr]) hl]
  simp [getField, Option.or, hr, hrev]

/-- Claim C6: after a load from a record, `isDeleted` equals "the content
key is absent"; when the key is present the content is cached verbatim;
when it is absent, accessing `content` fails with the typed nonexistence
error rather than crashing. -/
theorem deleted_detection_c6 (t : Transport) (api revid pid : Nat)
    (c ts u : String) (mn : Bool) (tok? : Option String) (par? : Option Nat)
    (st? : Option String) (rest : List RevRecord)
    (hq : t.query revid =
      some ⟨some pid, some (⟨some c, some ts, some u, mn, tok?, par?, st?⟩ :: rest)⟩) :
    (loadAttributes t (mkRevision api revid) none).state.is_deleted_
        = some st?.isNone ∧
    (st? = none →
      (accessAttr t (loadAttributes t (mkRevision api revid) none).state
          .content).result = .error (.nonexistentRevision revid)) ∧
    (∀ txt, st? = some txt →
      (loadAttributes t (mkRevision api revid) none).state.content_
        = some txt) := by
  have hload := (loadAttributes_via_query t (mkRevision api revid) _ hq).trans
    (decodeLoad_spec (mkRevision api revid) pid c ts u mn tok? par? st? rest 1)
  refine ⟨by rw [hload], ?_, ?_⟩
  · intro hst
    subst hst
    rw [hload]
    exact accessAttr_content_deleted t revid pid c ts u mn tok? par? rest _
      rfl rfl hq
  · intro txt hst
    subst hst
    rw [hload]
    rfl

/-- Witness for C6 at the spec's example: revid 7, record lacking the
`"*"` key. -/
theorem deleted_detection_c6_witness :
    (loadAttributes deletedT (mkRevision 0 7) none).state.is_deleted_
        = some true ∧
    (accessAttr deletedT (loadAttributes deletedT (mkRevision 0 7) none).state
        .content).result = .error (.nonexistentRevision 7) :=
  ⟨(deleted_detection_c6 deletedT 0 7 3 "c" "2013-01-01T00:00:00Z" "Bar" false
      (some "TOK") (some 4) none [] rfl).1,
   (deleted_detection_c6 deletedT 0 7 3 "c" "2013-01-01T00:00:00Z" "Bar" false
      (some "TOK") (some 4) none [] rfl).2.1 rfl⟩

/-- Claim C7: a load whose record carries a nonzero `parentid` p stores,
as the previous revision, the identity of `Revision(api, p)` — itself a
freshly constructed, unloaded object equal (by `__eq__`) to
`Revision(api, p)`; a `parentid` of 0 or null stores Python `None`. -/
theorem prev_revision_c7 (t : Transport) (api revid pid : Nat)
    (c ts u : String) (mn : Bool) (tok? : Option String) (par? : Option Nat)
    (st? : Option String) (rest : List RevRecord)
    (hq : t.query revid =
      some ⟨some pid, some (⟨some c, some ts, some u, mn, tok?, par?, st?⟩ :: rest)⟩) :
    (∀ p, par? = some p → p ≠ 0 →
      (loadAttributes t (mkRevision api revid) none).state.prev_revision_
          = some (some (api, p)) ∧
      beqRev (prevRevisionObj (api, p)) (mkRevision api p) = true ∧
      unloadedRev (prevRevisionObj (api, p)) = true) ∧
    ((par? = some 0 ∨ par? = none) →
      (loadAttributes t (mkRevision api revid) none).state.prev_revision_
          = some none) := by
  have hload := (loadAttributes_via_query t (mkRevision api revid) _ hq).trans
    (decodeLoad_spec (mkRevision api revid) pid c ts u mn tok? par? st? rest 1)
  constructor
  · intro p hp hp0
    subst hp
    refine ⟨?_, ?_, ?_⟩
    · rw [hload]
      simp [hp0, mkRevision]
    · simp [beqRev, prevRevisionObj, mkRevision, Revision.revidProp]
    · rfl
  · intro hp
    rcases hp with hp | hp
    · subst hp
      rw [hload]
      rfl
    · subst hp
      rw [hload]

/-- Witness for C7 at the spec's example: parentid 4 stored as
`Revision(api, 4)`, unloaded. -/
theorem prev_revision_c7_witness :
    (loadAttributes sampleT (mkRevision 0 5) none).state.prev_revision_
        = some (some (0, 4)) ∧
    beqRev (prevRevisionObj (0, 4)) (mkRevision 0 4) = true ∧
    unloadedRev (prevRevisionObj (0, 4)) = true :=
  (prev_revision_c7 sampleT 0 5 3 "c" "2013-01-01T00:00:00Z" "Bar" false
    (some "TOK") (some 4) (some "text") [] rfl).1 4 rfl (by decide)

/-- Claim C8: a load invoked without a supplied response issues exactly
one transport query, and an access to any already-populated field returns
the cached value with zero further queries and an unchanged state — so
repeated reads keep the total query count at 1. -/
theorem load_once_cached_c8 :
    (∀ (t : Transport) (r : Revision),
      (loadAttributes t r none).queries = 1) ∧
    (∀ (t : Transport) (r : Revision) (f : Field) (v : FieldVal),
      getField r f = some v → accessAttr t r f = ⟨.ok v, r, 0⟩) :=
  ⟨loadAttributes_none_queries, accessAttr_cached⟩

/-- Witness for C8: one concrete load costs one query; a cached token read
costs none and leaves the object unchanged. -/
theorem load_once_cached_c8_witness :
    (loadAttributes sampleT (mkRevision 0 5) none).queries = 1 ∧
    accessAttr sampleT cachedRev .rvtoken
      = ⟨.ok (.strV "TOK"), cachedRev, 0⟩ :=
  ⟨load_once_cached_c8.1 sampleT (mkRevision 0 5),
   load_once_cached_c8.2 sampleT cachedRev .rvtoken (.strV "TOK") rfl⟩

/-- Claim C9: on a revision with page and content cached, `restore`
returns exactly the page-edit result for this revision's content and the
given summary/flags — errors included, unchanged — with no retry, no
query and no mutating call of its own. -/
theorem restore_delegates_c9 (t : Transport) (r : Revision) (pg : Page)
    (c : String) (summary : String) (minor bot force : Bool)
    (hp : r.page_ = some pg) (hc : r.content_ = some c) :
    restore t r summary minor bot force =
      ⟨t.pageEdit pg.pageid c summary minor bot force, r, 0, []⟩ := by
  simp [restore, accessAttr, getField, hp, hc]

/-- Witness for C9, with a failing page edit to exhibit unchanged error
propagation. -/
theorem restore_delegates_c9_witness :
    restore failEditT cachedRev "s" false true false =
      ⟨.error (.editFailure 9), cachedRev, 0, []⟩ :=
  restore_delegates_c9 failEditT cachedRev ⟨0, 10⟩ "text" "s" false true false
    rfl rfl

/-- Claim C10: a falsy supplied response (such as the empty mapping) is
ignored — the load behaves exactly as if the argument had been omitted and
issues its one query — while a truthy supplied response short-circuits the
query entirely. -/
theorem falsy_response_ignored_c10 :
    (∀ (t : Transport) (r : Revision) (rsp : Response), rsp.truthy = false →
      loadAttributes t r (some rsp) = loadAttributes t r none) ∧
    (∀ (t : Transport) (r : Revision),
      (loadAttributes t r (some Response.empty)).queries = 1) ∧
    (∀ (t : Transport) (r : Revision) (rsp : Response), rsp.truthy = true →
      (loadAttributes t r (some rsp)).queries = 0) := by
  refine ⟨loadAttributes_falsy, ?_, ?_⟩
  · intro t r
    rw [loadAttributes_falsy t r Response.empty rfl]
    exact loadAttributes_none_queries t r
  · intro t r rsp ht
    rw [loadAttributes_truthy_eq t r rsp ht]
    exact decodeLoad_queries r rsp 0

/-- Witness for C10: the empty mapping is ignored and costs the one query;
a truthy response costs none. -/
theorem falsy_response_ignored_c10_witness :
    loadAttributes sampleT (mkRevision 0 5) (some Response.empty)
        = loadAttributes sampleT (mkRevision 0 5) none ∧
    (loadAttributes sampleT (mkRevision 0 5) (some Response.empty)).queries = 1 ∧
    (loadAttributes sampleT (mkRevision 0 5) (some sampleResp)).queries = 0 :=
  ⟨falsy_response_ignored_c10.1 sampleT (mkRevision 0 5) Response.empty rfl,
   falsy_response_ignored_c10.2.1 sampleT (mkRevision 0 5),
   falsy_response_ignored_c10.2.2 sampleT (mkRevision 0 5) sampleResp rfl⟩

end Ceterach
